import Mathlib

/-!
Shallow embedding of the `cb-arr-discord` bot (src/main.py, src/radarr.py).

The code is a thin wrapper over two external libraries: the `pyarr` REST
client for the Radarr service and the discord bot SDK.  State owned by the
remote service (the movie library and the tag list) is embedded as an
explicit `RState` record threaded through the operations.  Behaviour of the
external libraries themselves (`fuzz.partial_ratio`, `humanize.naturalsize`,
the remote `create_tag` / `lookup_movie` / `add_movie` endpoints) is taken as
a function parameter, since it is not code of this repository; everything the
code of this repository itself does with those results is embedded faithfully.
Python exceptions are embedded as `Except.error`; a generator function is
embedded as the list of the messages it yields, paired with the resulting
remote state when the operation can modify it.
-/

namespace Radarr

/-- Movie record as returned by the Radarr API: the fields the code reads.
The optional `fuzzy_score` field models the presence of the
fuzzy_score key in the Python dict. -/
structure Movie where
  id : Nat
  tmdbId : Nat
  title : String
  year : Int
  sizeOnDisk : Nat
  tags : List Nat
  fuzzy_score : Option Nat := none
deriving DecidableEq

/-- Tag record as returned by the Radarr API (fields `id` and `label`). -/
structure Tag where
  id : Nat
  label : String
deriving DecidableEq

/-- State held by the remote Radarr service: its movie library and tag list. -/
structure RState where
  movies : List Movie
  tags : List Tag
deriving DecidableEq

/-- Left-pads a string with spaces to width 7, embedding the Python format
specifier `:>7` of `movie_text_line`. -/
def pad7 (s : String) : String :=
  String.mk (List.replicate (7 - s.length) ' ') ++ s

/-- Embeds `movie_text_line` (radarr.py line 39): the tmdbId right-aligned
to width 7, a colon and space, the title, and the year in parentheses. -/
def movie_text_line (m : Movie) : String :=
  pad7 (toString m.tmdbId) ++ ": " ++ m.title ++ " (" ++ toString m.year ++ ")"

/-- Embeds the fuzzy-score suffix used by `list` and `me`
(radarr.py lines 98-100): empty when the dict has no fuzzy_score key,
otherwise a parenthesized fuzzy-score note. -/
def fuzzy_suffix (m : Movie) : String :=
  match m.fuzzy_score with
  | none => ""
  | some s => " (fuzzy score: " ++ toString s ++ ")"

/-- Line appended per movie by `list` and `me` (radarr.py line 101 / 144):
`movie_text_line(movie) + fuzzy_string + "\n"`. -/
def movie_fuzzy_line (m : Movie) : String :=
  movie_text_line m ++ fuzzy_suffix m ++ "\n"

/-- Line appended per movie by `search` and the untagged listing of `status`
(radarr.py lines 80 and 218): `movie_text_line(movie) + "\n"`. -/
def movie_plain_line (m : Movie) : String :=
  movie_text_line m ++ "\n"

/-- Embeds the shared accumulate-and-yield loop of `list`, `search` and the
untagged block of `status`: append each line to the accumulator, yield and
reset whenever the accumulator exceeds 1800 characters, and always yield the
final accumulator after the loop. -/
def chunk_fold (f : Movie → String) : List Movie → String → List String
  | [], acc => [acc]
  | m :: ms, acc =>
    let acc2 := acc ++ f m
    if acc2.length > 1800 then acc2 :: chunk_fold f ms ""
    else chunk_fold f ms acc2

/-- Embeds the loop of `me` (radarr.py lines 139-150): like `chunk_fold` but
only movies carrying `tag_id` are rendered, and the final accumulator is
yielded only when it is non-empty. -/
def me_fold (tag_id : Nat) (f : Movie → String) : List Movie → String → List String
  | [], acc => if acc ≠ "" then [acc] else []
  | m :: ms, acc =>
    if tag_id ∈ m.tags then
      let acc2 := acc ++ f m
      if acc2.length > 1800 then acc2 :: me_fold tag_id f ms ""
      else me_fold tag_id f ms acc2
    else me_fold tag_id f ms acc

/-- Embeds `_filter_movies` (radarr.py lines 16-23).  `ratio` stands for
`fuzz.partial_ratio` from the external `thefuzz` library.  Python
`sorted(..., reverse=True)` is a stable sort placing larger keys first,
embedded by `mergeSort` with the flipped comparison; `[:10]` is `take 10`;
the final loop stores the score under the fuzzy_score key. -/
def filter_movies (ratio : String → String → Nat) (movies : List Movie)
    (args : List String) : List Movie :=
  let string_match := String.intercalate " " args
  let sorted := movies.mergeSort
    (fun a b => ratio b.title string_match ≤ ratio a.title string_match)
  let top := sorted.take 10
  top.map (fun m => { m with fuzzy_score := some (ratio m.title string_match) })

/-- Movie list iterated by `list` and `me` (radarr.py lines 91-94 / 133-136):
fuzzy-filtered when arguments are present, otherwise sorted by title. -/
def selected_movies (ratio : String → String → Nat) (movies : List Movie)
    (args : List String) : List Movie :=
  if args.length > 0 then filter_movies ratio movies args
  else movies.mergeSort (fun a b => a.title ≤ b.title)

/-- Embeds `Radarr.list` (radarr.py lines 88-106). -/
def list (ratio : String → String → Nat) (st : RState)
    (args : List String) : List String :=
  chunk_fold movie_fuzzy_line (selected_movies ratio st.movies args) ""

/-- Movies of the library having an empty tag list, as collected by the
`status` loop (radarr.py lines 56-60). -/
def untagged_movies (st : RState) : List Movie :=
  st.movies.filter (fun m => m.tags.length = 0)

/-- Hint yielded at the end of the `status` untagged listing
(radarr.py line 86). -/
def tag_hint : String :=
  "Use `!radarr tag <id>` to tag a movie for yourself"

/-- Embeds `Radarr.status` (radarr.py lines 49-86).  `hsize` stands for
`humanize.naturalsize` from the external `humanize` library. -/
def status (hsize : Nat → String) (st : RState) (args : List String) :
    List String :=
  let count := st.movies.length
  let total_size := (st.movies.map (·.sizeOnDisk)).sum
  let untagged := untagged_movies st
  let untagged_size := (untagged.map (·.sizeOnDisk)).sum
  let h_total_size := hsize total_size
  let h_untagged_size := hsize untagged_size
  let untagged_count := untagged.length
  let untagged_message :=
    if untagged_count = 0 then "(all tagged)"
    else "(" ++ toString untagged_count ++ " untagged totalling " ++
      h_untagged_size ++ ")"
  let header := "There are " ++ toString count ++ " movies totalling " ++
    h_total_size ++ " " ++ untagged_message
  header ::
    (match args with
     | a :: _ =>
       if a = "+" then
         if untagged_count > 0 then
           chunk_fold movie_plain_line untagged "" ++ [tag_hint]
         else []
       else []
     | [] => [])

/-- Embeds `Radarr.search` (radarr.py lines 203-223).  `lookup` stands for the
remote `api.lookup_movie` endpoint.  The no-result message reproduces the
source literally: the braces are text because the Python string lacks the
`f` prefix. -/
def search (lookup : String → Option (List Movie)) (args : List String) :
    List String :=
  match args with
  | [] => ["Please provide a search string"]
  | _ :: _ =>
    let search_string := String.intercalate " " args
    match lookup search_string with
    | none => ["No movies found for search string \x7bsearch_string\x7d"]
    | some movies => chunk_fold movie_plain_line movies ""

/-- Embeds `Radarr._get_tag_id` (radarr.py lines 108-113): the id of the
first remote tag whose label equals `label`, else `none`. -/
def get_tag_id (tags : List Tag) (label : String) : Option Nat :=
  (tags.find? (fun t => t.label = label)).map (·.id)

/-- Embeds `Radarr._lookup_user_tag_id` (radarr.py lines 115-126).
`createTag` stands for the remote `api.create_tag` endpoint: given the
current tag list and a label, it returns the tag list after the creation
call.  The result pairs the resolved tag id with the tag list as the remote
now holds it; the ValueError of the source is `Except.error`. -/
def lookup_user_tag_id (createTag : List Tag → String → List Tag)
    (tags : List Tag) (username : String) : Except String (Nat × List Tag) :=
  let tags2 :=
    if (get_tag_id tags username).isNone then createTag tags username
    else tags
  match get_tag_id tags2 username with
  | some tag_id => .ok (tag_id, tags2)
  | none => .error "Unable to create tag"

/-- Embeds `Radarr._get_movie_by_id` (radarr.py lines 152-161).  The remote
call `get_movie(id_=movie_id, tmdb=True)` returns the movies whose TMDB id
matches the argument; the code then rejects anything but a single match. -/
def get_movie_by_id (movies : List Movie) (movie_id : String) : Option Movie :=
  match movies.filter (fun m => toString m.tmdbId = movie_id) with
  | [m] => some m
  | _ => none

/-- Embeds the remote `api.upd_movie` endpoint: the movie record replaces the
library entry carrying the same internal id. -/
def upd_movie (movies : List Movie) (m : Movie) : List Movie :=
  movies.map (fun x => if x.id = m.id then m else x)

/-- Embeds `Radarr.tag` (radarr.py lines 163-181).  Note the user-tag lookup
runs before the missing-argument check, exactly as in the source. -/
def tag (createTag : List Tag → String → List Tag) (st : RState)
    (username : String) (args : List String) : Except String (String × RState) :=
  match lookup_user_tag_id createTag st.tags username with
  | .error e => .error e
  | .ok (tag_id, tags2) =>
    let st1 : RState := { st with tags := tags2 }
    match args with
    | [] => .ok ("Please provide a movie ID to tag", st1)
    | movie_id :: _ =>
      match get_movie_by_id st1.movies movie_id with
      | none => .ok ("Movie could not be identified using ID " ++ movie_id, st1)
      | some movie =>
        if tag_id ∈ movie.tags then
          .ok ("Movie " ++ movie.title ++ " (" ++ toString movie.year ++
            ") is already tagged for you", st1)
        else
          let movie2 := { movie with tags := movie.tags ++ [tag_id] }
          .ok ("Tagged " ++ movie2.title ++ " (" ++ toString movie2.year ++ ")",
            { st1 with movies := upd_movie st1.movies movie2 })

/-- Embeds `Radarr.untag` (radarr.py lines 183-201).  Python `list.remove`
deletes the first occurrence, embedded by `List.erase`. -/
def untag (createTag : List Tag → String → List Tag) (st : RState)
    (username : String) (args : List String) : Except String (String × RState) :=
  match lookup_user_tag_id createTag st.tags username with
  | .error e => .error e
  | .ok (tag_id, tags2) =>
    let st1 : RState := { st with tags := tags2 }
    match args with
    | [] => .ok ("Please provide a movie ID to untag", st1)
    | movie_id :: _ =>
      match get_movie_by_id st1.movies movie_id with
      | none => .ok ("Movie could not be identified using ID " ++ movie_id, st1)
      | some movie =>
        if tag_id ∉ movie.tags then
          .ok ("Movie " ++ movie.title ++ " (" ++ toString movie.year ++
            ") is not tagged for you", st1)
        else
          let movie2 := { movie with tags := movie.tags.erase tag_id }
          .ok ("Untagged " ++ movie2.title ++ " (" ++ toString movie2.year ++ ")",
            { st1 with movies := upd_movie st1.movies movie2 })

/-- Embeds `Radarr.me` (radarr.py lines 128-150): resolve the user tag, pick
the movie list as `list` does, and render only movies carrying the tag. -/
def me (createTag : List Tag → String → List Tag)
    (ratio : String → String → Nat) (st : RState) (username : String)
    (args : List String) : Except String (List String × RState) :=
  match lookup_user_tag_id createTag st.tags username with
  | .error e => .error e
  | .ok (tag_id, tags2) =>
    .ok (me_fold tag_id movie_fuzzy_line (selected_movies ratio st.movies args) "",
      { st with tags := tags2 })

/-- Outcome of the remote `api.add_movie` call inside `Radarr.add_movie`:
success with the created movie record, a `PyarrBadRequest` carrying its
message, or a remote error of any other exception class. -/
inductive AddOutcome where
  | added (m : Movie)
  | badRequest (msg : String)
  | otherError (msg : String)
deriving DecidableEq

/-- Substring containment, embedding the Python `in` operator on strings. -/
def str_contains (hay needle : String) : Bool :=
  (List.range (hay.length + 1)).any
    (fun i => needle.data.isPrefixOf (hay.data.drop i))

/-- Embeds `Radarr.add_movie` (radarr.py lines 225-260).  `lookup` stands for
`api.lookup_movie`; `addCall` stands for the remote `api.add_movie` endpoint,
taking the looked-up movie and the user tag id (the root folder and quality
profile are remote reads folded into the outcome).  Only `PyarrBadRequest`
is caught by the source; any other exception, like the `ValueError` of the
tag lookup or an indexing error on an empty lookup result, escapes as
`Except.error`. -/
def add_movie (createTag : List Tag → String → List Tag)
    (lookup : String → Option (List Movie)) (addCall : Movie → Nat → AddOutcome)
    (st : RState) (username : String) (args : List String) :
    Except String (List String × RState) :=
  match args with
  | [] => .ok (["Please provide the TMDB ID"], st)
  | tmdb_id :: _ =>
    match lookup ("tmdb:" ++ tmdb_id) with
    | none => .ok (["No movie found for TMDB ID " ++ tmdb_id], st)
    | some found =>
      if found.length > 1 then
        .ok (["Found multiple matches for TMDB ID " ++ tmdb_id], st)
      else
        match found with
        | [] => .error "IndexError: list index out of range"
        | movie :: _ =>
          match lookup_user_tag_id createTag st.tags username with
          | .error e => .error e
          | .ok (tag_id, tags2) =>
            let st1 : RState := { st with tags := tags2 }
            match addCall movie tag_id with
            | .added m2 =>
              .ok (["Added " ++ m2.title ++ " (" ++ toString m2.year ++ ")"], st1)
            | .badRequest e =>
              if str_contains e "This movie has already been added" then
                .ok (["Movie " ++ movie.title ++ " (" ++ toString movie.year ++
                  ") is already added"], st1)
              else
                .ok (["Error adding movie: " ++ e], st1)
            | .otherError e => .error e

end Radarr

namespace Main

/-- Action the `radarr` command handler of main.py takes after the channel
check: which operation it dispatches to, or the unknown-command reply text. -/
inductive Action where
  | help
  | status (args : List String)
  | listMovies (args : List String)
  | me (user : String) (args : List String)
  | tagMovie (user : String) (args : List String)
  | untagMovie (user : String) (args : List String)
  | search (args : List String)
  | addMovie (user : String) (args : List String)
  | unknown (msg : String)
deriving DecidableEq

/-- Embeds the dispatch of the `radarr` command handler (main.py lines
56-114): a missing sub-command defaults to `status`, the eight known words
dispatch to their operation, and anything else is answered with the literal
`f"\x60Unknown command \x7bcmd\x7d\x60"` reply. -/
def radarr_command (author : String) (cmd : Option String)
    (args : List String) : Action :=
  let c := match cmd with | none => "status" | some c => c
  if c = "help" then .help
  else if c = "status" then .status args
  else if c = "list" then .listMovies args
  else if c = "me" then .me author args
  else if c = "tag" then .tagMovie author args
  else if c = "untag" then .untagMovie author args
  else if c = "search" then .search args
  else if c = "add" then .addMovie author args
  else .unknown ("`Unknown command " ++ c ++ "`")

end Main

section Helpers

open Radarr

/-- Largest rendered line length over a movie list: the margin by which a
chunk can exceed the 1800-character limit. -/
def line_max (f : Movie → String) (l : List Movie) : Nat :=
  (l.map (fun m => (f m).length)).foldr max 0

theorem le_line_max (f : Movie → String) :
    ∀ {l : List Movie} {m : Movie}, m ∈ l → (f m).length ≤ line_max f l := by
  intro l
  induction l with
  | nil => intro m hm; cases hm
  | cons a t ih =>
    intro m hm
    rcases List.mem_cons.mp hm with rfl | hm
    · exact le_max_left _ _
    · exact le_trans (ih hm) (le_max_right _ _)

theorem chunk_fold_bound (f : Movie → String) (L : Nat) :
    ∀ (l : List Movie) (acc : String), (∀ m ∈ l, (f m).length ≤ L) →
      acc.length ≤ 1800 → ∀ c ∈ chunk_fold f l acc, c.length ≤ 1800 + L := by
  intro l
  induction l with
  | nil =>
    intro acc _ hacc c hc
    simp only [chunk_fold, List.mem_singleton] at hc
    subst hc
    exact le_trans hacc (Nat.le_add_right _ _)
  | cons m ms ih =>
    intro acc hf hacc c hc
    simp only [chunk_fold] at hc
    have hlen : (acc ++ f m).length = acc.length + (f m).length :=
      String.length_append _ _
    by_cases hbig : (acc ++ f m).length > 1800
    · rw [if_pos hbig] at hc
      rcases List.mem_cons.mp hc with rfl | hc
      · rw [hlen]
        exact Nat.add_le_add hacc (hf m (List.mem_cons_self _ _))
      · exact ih "" (fun x hx => hf x (List.mem_cons_of_mem _ hx))
          (by simp) c hc
    · rw [if_neg hbig] at hc
      exact ih (acc ++ f m) (fun x hx => hf x (List.mem_cons_of_mem _ hx))
        (Nat.le_of_not_lt hbig) c hc

theorem me_fold_bound (tag_id : Nat) (f : Movie → String) (L : Nat) :
    ∀ (l : List Movie) (acc : String), (∀ m ∈ l, (f m).length ≤ L) →
      acc.length ≤ 1800 → ∀ c ∈ me_fold tag_id f l acc, c.length ≤ 1800 + L := by
  intro l
  induction l with
  | nil =>
    intro acc _ hacc c hc
    simp only [me_fold] at hc
    by_cases hne : acc ≠ ""
    · rw [if_pos hne] at hc
      rcases List.mem_singleton.mp hc with rfl
      exact le_trans hacc (Nat.le_add_right _ _)
    · rw [if_neg hne] at hc
      cases hc
  | cons m ms ih =>
    intro acc hf hacc c hc
    simp only [me_fold] at hc
    by_cases htag : tag_id ∈ m.tags
    · rw [if_pos htag] at hc
      have hlen : (acc ++ f m).length = acc.length + (f m).length :=
        String.length_append _ _
      by_cases hbig : (acc ++ f m).length > 1800
      · rw [if_pos hbig] at hc
        rcases List.mem_cons.mp hc with rfl | hc
        · rw [hlen]
          exact Nat.add_le_add hacc (hf m (List.mem_cons_self _ _))
        · exact ih "" (fun x hx => hf x (List.mem_cons_of_mem _ hx))
            (by simp) c hc
      · rw [if_neg hbig] at hc
        exact ih (acc ++ f m) (fun x hx => hf x (List.mem_cons_of_mem _ hx))
          (Nat.le_of_not_lt hbig) c hc
    · rw [if_neg htag] at hc
      exact ih acc (fun x hx => hf x (List.mem_cons_of_mem _ hx)) hacc c hc

theorem chunk_fold_ne_nil (f : Movie → String) :
    ∀ (l : List Movie) (acc : String), chunk_fold f l acc ≠ [] := by
  intro l
  induction l with
  | nil => intro acc; simp [chunk_fold]
  | cons m ms ih =>
    intro acc
    simp only [chunk_fold]
    by_cases hbig : (acc ++ f m).length > 1800
    · rw [if_pos hbig]; simp
    · rw [if_neg hbig]; exact ih _

theorem me_fold_eq_nil (tag_id : Nat) (f : Movie → String) :
    ∀ (l : List Movie), (∀ m ∈ l, tag_id ∉ m.tags) →
      me_fold tag_id f l "" = [] := by
  intro l
  induction l with
  | nil => intro _; simp [me_fold]
  | cons m ms ih =>
    intro h
    simp only [me_fold]
    rw [if_neg (h m (List.mem_cons_self _ _))]
    exact ih (fun x hx => h x (List.mem_cons_of_mem _ hx))

theorem mem_selected_tags (ratio : String → String → Nat) (movies : List Movie)
    (args : List String) :
    ∀ m' ∈ selected_movies ratio movies args, ∃ m ∈ movies, m'.tags = m.tags := by
  intro m' hm'
  simp only [selected_movies] at hm'
  by_cases hargs : args.length > 0
  · rw [if_pos hargs] at hm'
    simp only [filter_movies, List.mem_map] at hm'
    obtain ⟨x, hx, rfl⟩ := hm'
    have hx2 : x ∈ movies :=
      (List.mergeSort_perm movies _).mem_iff.mp
        (List.Sublist.mem hx (List.take_sublist _ _))
    exact ⟨x, hx2, rfl⟩
  · rw [if_neg hargs] at hm'
    exact ⟨m', (List.mergeSort_perm movies _).mem_iff.mp hm', rfl⟩

theorem get_tag_id_any {tags : List Tag} {u : String} {i : Nat}
    (h : get_tag_id tags u = some i) :
    tags.any (fun t => t.label == u && t.id == i) = true := by
  simp only [get_tag_id, Option.map_eq_some'] at h
  obtain ⟨t, hfind, hid⟩ := h
  have hmem : t ∈ tags := List.mem_of_find?_eq_some hfind
  have hp := List.find?_some hfind
  simp only [decide_eq_true_eq] at hp
  have hlab : t.label = u := hp
  exact List.any_eq_true.mpr ⟨t, hmem, by simp [hlab, hid]⟩

theorem lookup_ok_get {createTag : List Tag → String → List Tag}
    {tags tags2 : List Tag} {u : String} {i : Nat}
    (h : lookup_user_tag_id createTag tags u = .ok (i, tags2)) :
    get_tag_id tags2 u = some i := by
  simp only [lookup_user_tag_id] at h
  rcases hg : get_tag_id
      (if (get_tag_id tags u).isNone then createTag tags u else tags) u with
    _ | j
  · rw [hg] at h; cases h
  · rw [hg] at h
    cases h
    exact hg

theorem lookup_of_get {createTag : List Tag → String → List Tag}
    {tags : List Tag} {u : String} {i : Nat} (h : get_tag_id tags u = some i) :
    lookup_user_tag_id createTag tags u = .ok (i, tags) := by
  simp only [lookup_user_tag_id, h, Option.isNone_some, Bool.false_eq_true,
    if_false]

theorem get_movie_by_id_eq_some {l : List Movie} {mid : String} {m : Movie}
    (h : get_movie_by_id l mid = some m) :
    l.filter (fun x => toString x.tmdbId = mid) = [m] := by
  simp only [get_movie_by_id] at h
  rcases hf : l.filter (fun x => decide (toString x.tmdbId = mid)) with _ | ⟨x, xs⟩
  · rw [hf] at h; cases h
  · rcases xs with _ | ⟨y, ys⟩
    · rw [hf] at h
      cases h
      exact hf
    · rw [hf] at h; cases h

theorem filter_upd_movie {l : List Movie} {m m2 : Movie} {p : Movie → Bool}
    (hnodup : (l.map (·.id)).Nodup) (hf : l.filter p = [m])
    (hid : m2.id = m.id) (hp : p m2 = p m) :
    (upd_movie l m2).filter p = [m2] := by
  have hm_mem : m ∈ l :=
    (List.mem_filter.mp (by rw [hf]; exact List.mem_singleton_self m)).1
  simp only [upd_movie]
  rw [List.filter_map]
  have hcongr : l.filter (p ∘ fun x => if x.id = m2.id then m2 else x)
      = l.filter p := by
    apply List.filter_congr
    intro x hx
    by_cases hxid : x.id = m2.id
    · have hxm : x = m :=
        List.inj_on_of_nodup_map hnodup hx hm_mem (by rw [hxid, hid])
      simp [Function.comp, hxid, hp, hxm, hid]
    · simp [Function.comp, hxid]
  rw [hcongr, hf]
  simp [hid.symm]

theorem upd_upd {l : List Movie} {m m2 : Movie}
    (hnodup : (l.map (·.id)).Nodup) (hm : m ∈ l) (hid : m2.id = m.id) :
    upd_movie (upd_movie l m2) m = l := by
  simp only [upd_movie, List.map_map]
  have hpt : ∀ x ∈ l,
      ((fun x => if x.id = m.id then m else x) ∘
        (fun x => if x.id = m2.id then m2 else x)) x = id x := by
    intro x hx
    by_cases hxid : x.id = m2.id
    · have hxm : x = m :=
        List.inj_on_of_nodup_map hnodup hx hm (by rw [hxid, hid])
      simp [Function.comp, hxid, hid, hxm]
    · have hxm : ¬(x.id = m.id) := by rw [← hid]; exact hxid
      simp [Function.comp, hxid, hxm]
  rw [List.map_congr_left hpt, List.map_id]

end Helpers

/-- Claim C5: every sub-command word other than help, status, list, me, tag,
untag, search, and add makes the handler reply with a literal
"Unknown command" message, and an omitted sub-command word runs status
instead of the unknown-command reply. -/
theorem claim_C5_unknown_command :
    ∀ (author : String) (cmd : Option String) (args : List String),
    (cmd = none → Main.radarr_command author cmd args = Main.Action.status args) ∧
    (∀ c, cmd = some c →
      c ∉ (["help", "status", "list", "me", "tag",
            "untag", "search", "add"] : List String) →
      Main.radarr_command author cmd args =
        Main.Action.unknown ("`Unknown command " ++ c ++ "`") ∧
      ∃ p q, "`Unknown command " ++ c ++ "`" = p ++ "Unknown command" ++ q) := by
  intro author cmd args
  constructor
  · rintro rfl
    rfl
  · rintro c rfl hc
    simp only [List.mem_cons, List.not_mem_nil, or_false, not_or] at hc
    obtain ⟨h1, h2, h3, h4, h5, h6, h7, h8⟩ := hc
    refine ⟨by simp [Main.radarr_command, h1, h2, h3, h4, h5, h6, h7, h8],
      "`", " " ++ c ++ "`", ?_⟩
    have hsplit : ("`Unknown command " : String) =
        ("`" ++ "Unknown command") ++ " " := by decide
    rw [hsplit, String.append_assoc ("`" ++ "Unknown command") " " c,
      String.append_assoc ("`" ++ "Unknown command") (" " ++ c) "`"]

/-- Claim C5 witness: the sub-command word "frobnicate" gets the
unknown-command reply. -/
theorem claim_C5_witness :
    Main.radarr_command "alice" (some "frobnicate") [] =
      Main.Action.unknown ("`Unknown command " ++ "frobnicate" ++ "`") :=
  ((claim_C5_unknown_command "alice" (some "frobnicate") []).2 "frobnicate"
    rfl (by decide)).1

/-- Claim C4: the user-tag lookup resolves to the id of a remote tag whose
label equals the username exactly, auto-creating a tag named after the
username when none exists, and fails with "Unable to create tag" when the
tag is still missing after creation. -/
theorem claim_C4_user_tag_lookup :
    ∀ (createTag : List Radarr.Tag → String → List Radarr.Tag)
      (tags : List Radarr.Tag) (username : String) (tag_id : Nat)
      (tags2 : List Radarr.Tag) (e : String),
    (Radarr.lookup_user_tag_id createTag tags username =
        Except.ok (tag_id, tags2) →
      tags2.any (fun t => t.label == username && t.id == tag_id) = true ∧
      (Radarr.get_tag_id tags username = none →
        tags2 = createTag tags username) ∧
      (∀ i, Radarr.get_tag_id tags username = some i →
        tags2 = tags ∧ tag_id = i)) ∧
    (Radarr.lookup_user_tag_id createTag tags username = Except.error e →
      e = "Unable to create tag") := by
  intro createTag tags username tag_id tags2 e
  refine ⟨?_, ?_⟩
  · intro hok
    rcases hg : Radarr.get_tag_id tags username with _ | i
    · have hok2 := hok
      simp only [Radarr.lookup_user_tag_id, hg, Option.isNone_none,
        if_true] at hok2
      rcases hg2 : Radarr.get_tag_id (createTag tags username) username with
        _ | j
      · rw [hg2] at hok2
        cases hok2
      · rw [hg2] at hok2
        cases hok2
        refine ⟨get_tag_id_any hg2, fun _ => rfl, ?_⟩
        intro i hi
        cases hi
    · have hok2 := hok
      rw [@lookup_of_get createTag tags username i hg] at hok2
      cases hok2
      refine ⟨get_tag_id_any hg, ?_, ?_⟩
      · intro hnone
        cases hnone
      · intro i2 hi2
        cases hi2
        exact ⟨rfl, rfl⟩
  · intro herr
    have herr2 := herr
    simp only [Radarr.lookup_user_tag_id] at herr2
    rcases hg2 : Radarr.get_tag_id
        (if (Radarr.get_tag_id tags username).isNone then
          createTag tags username
        else tags) username with _ | j
    · rw [hg2] at herr2
      cases herr2
      rfl
    · rw [hg2] at herr2
      cases herr2

/-- Claim C4 witness: with an empty remote tag list, looking up user "bob"
creates and resolves a tag labelled "bob". -/
theorem claim_C4_witness :
    ([({ id := 0, label := "bob" } : Radarr.Tag)]).any
      (fun t => t.label == "bob" && t.id == 0) = true :=
  ((claim_C4_user_tag_lookup
      (fun ts l => ts ++ [({ id := 0, label := l } : Radarr.Tag)]) [] "bob" 0
      [({ id := 0, label := "bob" } : Radarr.Tag)] "").1 rfl).1

/-- Claim C2 (amended): in the add operation, a remote bad-request error whose
message contains "This movie has already been added" yields the friendly
already-added message, every other remote bad-request error yields the
generic "Error adding movie: <error>" text, and a remote error of any other
exception class propagates as an exception. -/
theorem claim_C2_add_error_handling :
    ∀ (createTag : List Radarr.Tag → String → List Radarr.Tag)
      (lookup : String → Option (List Radarr.Movie))
      (addCall : Radarr.Movie → Nat → Radarr.AddOutcome)
      (st : Radarr.RState) (username tmdb_id : String)
      (m : Radarr.Movie) (tag_id : Nat) (tags2 : List Radarr.Tag) (e : String),
    lookup ("tmdb:" ++ tmdb_id) = some [m] →
    Radarr.lookup_user_tag_id createTag st.tags username =
      Except.ok (tag_id, tags2) →
    ((addCall m tag_id = Radarr.AddOutcome.badRequest e →
      Radarr.str_contains e "This movie has already been added" = true →
      Radarr.add_movie createTag lookup addCall st username [tmdb_id] =
        Except.ok (["Movie " ++ m.title ++ " (" ++ toString m.year ++
          ") is already added"], { st with tags := tags2 })) ∧
    (addCall m tag_id = Radarr.AddOutcome.badRequest e →
      Radarr.str_contains e "This movie has already been added" = false →
      Radarr.add_movie createTag lookup addCall st username [tmdb_id] =
        Except.ok (["Error adding movie: " ++ e], { st with tags := tags2 })) ∧
    (addCall m tag_id = Radarr.AddOutcome.otherError e →
      Radarr.add_movie createTag lookup addCall st username [tmdb_id] =
        Except.error e)) := by
  intro createTag lookup addCall st username tmdb_id m tag_id tags2 e
  intro hlookup htag
  have hbase : ∀ out, addCall m tag_id = out →
      Radarr.add_movie createTag lookup addCall st username [tmdb_id] =
        (match out with
         | Radarr.AddOutcome.added m2 =>
           Except.ok (["Added " ++ m2.title ++ " (" ++ toString m2.year ++ ")"],
             { st with tags := tags2 })
         | Radarr.AddOutcome.badRequest e2 =>
           if Radarr.str_contains e2 "This movie has already been added" then
             Except.ok (["Movie " ++ m.title ++ " (" ++ toString m.year ++
               ") is already added"], { st with tags := tags2 })
           else
             Except.ok (["Error adding movie: " ++ e2], { st with tags := tags2 })
         | Radarr.AddOutcome.otherError e2 => Except.error e2) := by
    intro out hout
    simp only [Radarr.add_movie, hlookup, htag, hout, List.length_cons,
      List.length_nil]
    rfl
  refine ⟨?_, ?_, ?_⟩
  · intro hout hcontains
    rw [hbase _ hout]
    simp only [hcontains, if_true]
  · intro hout hcontains
    rw [hbase _ hout]
    simp only [hcontains, Bool.false_eq_true, if_false]
  · intro hout
    exact hbase _ hout

/-- Concrete movie used by the example instantiations below. -/
def fixMovie : Radarr.Movie := ⟨1, 42, "T", 2001, 0, [], none⟩

/-- Concrete remote state with an empty library and one tag for "alice". -/
def fixState : Radarr.RState := ⟨[], [⟨1, "alice"⟩]⟩

/-- Concrete stand-in for the remote `create_tag` endpoint: appends a tag
with id 0 and the requested label. -/
def fixCreate : List Radarr.Tag → String → List Radarr.Tag :=
  fun ts l => ts ++ [⟨0, l⟩]

/-- Claim C2 counterexample: a remote error that is not a bad request (here a
connection error) raised by the add call propagates as an exception instead
of yielding the generic "Error adding movie" text, because the source only
catches `PyarrBadRequest`. -/
theorem claim_C2_counterexample :
    Radarr.add_movie (fun ts _ => ts) (fun _ => some [fixMovie])
      (fun _ _ => Radarr.AddOutcome.otherError "PyarrConnectionError: timeout")
      fixState "alice" ["42"] =
        Except.error "PyarrConnectionError: timeout" ∧
    (Radarr.add_movie (fun ts _ => ts) (fun _ => some [fixMovie])
      (fun _ _ => Radarr.AddOutcome.otherError "PyarrConnectionError: timeout")
      fixState "alice" ["42"]).isOk = false := ⟨rfl, rfl⟩

/-- Claim C2 witness: a bad request whose message contains the known conflict
string yields the friendly already-added message. -/
theorem claim_C2_witness :
    Radarr.add_movie (fun ts _ => ts) (fun _ => some [fixMovie])
      (fun _ _ =>
        Radarr.AddOutcome.badRequest "This movie has already been added")
      fixState "alice" ["42"] =
      Except.ok (["Movie " ++ fixMovie.title ++ " (" ++
        toString fixMovie.year ++ ") is already added"],
        { fixState with tags := [⟨1, "alice"⟩] }) :=
  ((claim_C2_add_error_handling (fun ts _ => ts) (fun _ => some [fixMovie])
      (fun _ _ =>
        Radarr.AddOutcome.badRequest "This movie has already been added")
      fixState "alice" "42" fixMovie 1 [⟨1, "alice"⟩]
      "This movie has already been added" rfl rfl).1 rfl (by decide))

/-- Claim C6 (amended): with zero trailing arguments, search and add return
their instructive "Please provide ..." reply without touching the remote
state, while tag and untag first resolve the tag of the user — which can
auto-create the tag of the user remotely — and then return their instructive
reply without modifying any movie. -/
theorem claim_C6_missing_args :
    ∀ (createTag : List Radarr.Tag → String → List Radarr.Tag)
      (lookup : String → Option (List Radarr.Movie))
      (addCall : Radarr.Movie → Nat → Radarr.AddOutcome)
      (st : Radarr.RState) (username : String) (tag_id : Nat)
      (tags2 : List Radarr.Tag),
    Radarr.search lookup [] = ["Please provide a search string"] ∧
    Radarr.add_movie createTag lookup addCall st username [] =
      Except.ok (["Please provide the TMDB ID"], st) ∧
    (Radarr.lookup_user_tag_id createTag st.tags username =
        Except.ok (tag_id, tags2) →
      Radarr.tag createTag st username [] =
        Except.ok ("Please provide a movie ID to tag",
          { st with tags := tags2 }) ∧
      Radarr.untag createTag st username [] =
        Except.ok ("Please provide a movie ID to untag",
          { st with tags := tags2 })) := by
  intro createTag lookup addCall st username tag_id tags2
  refine ⟨rfl, rfl, ?_⟩
  intro hlookup
  constructor
  · simp only [Radarr.tag, hlookup]
  · simp only [Radarr.untag, hlookup]

/-- Claim C6 counterexample: calling tag with zero arguments for a user whose
tag does not yet exist returns the instructive reply but also modifies the
remote state, because the user-tag lookup auto-creates the tag before the
missing-argument check runs. -/
theorem claim_C6_counterexample :
    Radarr.tag fixCreate ⟨[], []⟩ "alice" [] =
      Except.ok ("Please provide a movie ID to tag",
        (⟨[], [⟨0, "alice"⟩]⟩ : Radarr.RState)) ∧
    (⟨[], []⟩ : Radarr.RState) ≠ (⟨[], [⟨0, "alice"⟩]⟩ : Radarr.RState) :=
  ⟨rfl, by decide⟩

/-- Claim C6 witness: for a user whose tag already exists, tag with zero
arguments returns the instructive reply and leaves the remote state as it
was. -/
theorem claim_C6_witness :
    Radarr.tag fixCreate fixState "alice" [] =
      Except.ok ("Please provide a movie ID to tag",
        { fixState with tags := [⟨1, "alice"⟩] }) :=
  ((claim_C6_missing_args fixCreate (fun _ => none)
      (fun _ _ => Radarr.AddOutcome.badRequest "") fixState "alice" 1
      [⟨1, "alice"⟩]).2.2 rfl).1

/-- Claim C8: when the movie already carries the tag of the user, the tag
operation returns the already-tagged message, and when it does not carry the
tag, the untag operation returns the not-tagged message; in both cases the
remote movie library is returned unchanged. -/
theorem claim_C8_idempotent_guards :
    ∀ (createTag : List Radarr.Tag → String → List Radarr.Tag)
      (st : Radarr.RState) (username movie_id : String) (tag_id : Nat)
      (tags2 : List Radarr.Tag) (m : Radarr.Movie),
    Radarr.lookup_user_tag_id createTag st.tags username =
      Except.ok (tag_id, tags2) →
    Radarr.get_movie_by_id st.movies movie_id = some m →
    (tag_id ∈ m.tags →
      Radarr.tag createTag st username [movie_id] =
        Except.ok ("Movie " ++ m.title ++ " (" ++ toString m.year ++
          ") is already tagged for you", { st with tags := tags2 })) ∧
    (tag_id ∉ m.tags →
      Radarr.untag createTag st username [movie_id] =
        Except.ok ("Movie " ++ m.title ++ " (" ++ toString m.year ++
          ") is not tagged for you", { st with tags := tags2 })) := by
  intro createTag st username movie_id tag_id tags2 m hlookup hmovie
  constructor
  · intro htag
    simp only [Radarr.tag, hlookup, hmovie]
    rw [if_pos htag]
  · intro htag
    simp only [Radarr.untag, hlookup, hmovie]
    rw [if_pos htag]

/-- Claim C8 witness: a movie already carrying the tag of "alice" gets the
already-tagged reply and the library is unchanged. -/
theorem claim_C8_witness :
    Radarr.tag fixCreate ⟨[⟨1, 42, "T", 2001, 0, [1], none⟩], [⟨1, "alice"⟩]⟩
        "alice" ["42"] =
      Except.ok ("Movie " ++ "T" ++ " (" ++ toString (2001 : Int) ++
        ") is already tagged for you",
        { (⟨[⟨1, 42, "T", 2001, 0, [1], none⟩], [⟨1, "alice"⟩]⟩ : Radarr.RState)
          with tags := [⟨1, "alice"⟩] }) :=
  ((claim_C8_idempotent_guards fixCreate
      ⟨[⟨1, 42, "T", 2001, 0, [1], none⟩], [⟨1, "alice"⟩]⟩ "alice" "42" 1
      [⟨1, "alice"⟩] ⟨1, 42, "T", 2001, 0, [1], none⟩ rfl (by decide)).1
    (by decide))

/-- Claim C9: for a movie uniquely identified by its id that does not carry
the tag of the user, tag appends exactly the tag of the user id, and a following untag
removes exactly that one occurrence, restoring the movie library to its
original value. -/
theorem claim_C9_tag_untag_roundtrip :
    ∀ (createTag : List Radarr.Tag → String → List Radarr.Tag)
      (st : Radarr.RState) (username movie_id : String) (tag_id : Nat)
      (tags2 : List Radarr.Tag) (m : Radarr.Movie),
    Radarr.lookup_user_tag_id createTag st.tags username =
      Except.ok (tag_id, tags2) →
    Radarr.get_movie_by_id st.movies movie_id = some m →
    tag_id ∉ m.tags →
    (st.movies.map (·.id)).Nodup →
    Radarr.tag createTag st username [movie_id] =
      Except.ok ("Tagged " ++ m.title ++ " (" ++ toString m.year ++ ")",
        ⟨Radarr.upd_movie st.movies { m with tags := m.tags ++ [tag_id] },
          tags2⟩) ∧
    Radarr.get_movie_by_id
        (Radarr.upd_movie st.movies { m with tags := m.tags ++ [tag_id] })
        movie_id = some { m with tags := m.tags ++ [tag_id] } ∧
    Radarr.untag createTag
        ⟨Radarr.upd_movie st.movies { m with tags := m.tags ++ [tag_id] },
          tags2⟩ username [movie_id] =
      Except.ok ("Untagged " ++ m.title ++ " (" ++ toString m.year ++ ")",
        ⟨st.movies, tags2⟩) := by
  intro createTag st username movie_id tag_id tags2 m hlookup hmovie htag hnodup
  obtain ⟨mid, mtmdb, mtitle, myear, msize, mtags, mfuzz⟩ := m
  have hfil := get_movie_by_id_eq_some hmovie
  have hmem : Radarr.Movie.mk mid mtmdb mtitle myear msize mtags mfuzz ∈
      st.movies :=
    (List.mem_filter.mp (by rw [hfil]; exact List.mem_singleton_self _)).1
  have hfil2 : (Radarr.upd_movie st.movies
      (Radarr.Movie.mk mid mtmdb mtitle myear msize (mtags ++ [tag_id])
        mfuzz)).filter (fun x => toString x.tmdbId = movie_id) =
      [Radarr.Movie.mk mid mtmdb mtitle myear msize (mtags ++ [tag_id]) mfuzz] :=
    filter_upd_movie hnodup hfil rfl rfl
  have h2 : Radarr.get_movie_by_id
      (Radarr.upd_movie st.movies
        (Radarr.Movie.mk mid mtmdb mtitle myear msize (mtags ++ [tag_id])
          mfuzz)) movie_id =
      some (Radarr.Movie.mk mid mtmdb mtitle myear msize (mtags ++ [tag_id])
        mfuzz) := by
    simp only [Radarr.get_movie_by_id, hfil2]
  refine ⟨?_, h2, ?_⟩
  · simp only [Radarr.tag, hlookup, hmovie]
    rw [if_neg htag]
  · have hget2 : Radarr.get_tag_id tags2 username = some tag_id :=
      lookup_ok_get hlookup
    have hlookup2 : Radarr.lookup_user_tag_id createTag tags2 username =
        Except.ok (tag_id, tags2) := lookup_of_get hget2
    have hmem2 : tag_id ∈ mtags ++ [tag_id] :=
      List.mem_append_right _ (List.mem_singleton_self _)
    have herase : (mtags ++ [tag_id]).erase tag_id = mtags := by
      rw [List.erase_append_right _ htag]
      simp
    have hupd : Radarr.upd_movie
        (Radarr.upd_movie st.movies
          (Radarr.Movie.mk mid mtmdb mtitle myear msize (mtags ++ [tag_id])
            mfuzz))
        (Radarr.Movie.mk mid mtmdb mtitle myear msize mtags mfuzz) =
        st.movies := upd_upd hnodup hmem rfl
    simp only [Radarr.untag, hlookup2, h2]
    rw [if_neg (fun hn => hn hmem2)]
    rw [show (Radarr.Movie.mk mid mtmdb mtitle myear msize
        ((mtags ++ [tag_id]).erase tag_id) mfuzz) =
      Radarr.Movie.mk mid mtmdb mtitle myear msize mtags mfuzz from by
        rw [herase]]
    rw [hupd]

/-- Claim C9 witness: tagging movie 42 for "alice" (tag id 5) appends 5 to
its tag list. -/
theorem claim_C9_witness :
    Radarr.tag fixCreate ⟨[⟨1, 42, "T", 2001, 0, [7], none⟩], [⟨5, "alice"⟩]⟩
        "alice" ["42"] =
      Except.ok ("Tagged " ++ "T" ++ " (" ++ toString (2001 : Int) ++ ")",
        ⟨Radarr.upd_movie [⟨1, 42, "T", 2001, 0, [7], none⟩]
            ⟨1, 42, "T", 2001, 0, [7, 5], none⟩, [⟨5, "alice"⟩]⟩) :=
  (claim_C9_tag_untag_roundtrip fixCreate
    ⟨[⟨1, 42, "T", 2001, 0, [7], none⟩], [⟨5, "alice"⟩]⟩ "alice" "42" 5
    [⟨5, "alice"⟩] ⟨1, 42, "T", 2001, 0, [7], none⟩ rfl (by decide)
    (by decide) (by decide)).1

/-- Claim C3: for every candidate list and non-empty argument tuple, the
fuzzy filter returns at most 10 movies, ordered by non-increasing partial
similarity of title against the space-joined arguments, each carrying its
similarity score. -/
theorem claim_C3_fuzzy_filter :
    ∀ (ratio : String → String → Nat) (movies : List Radarr.Movie)
      (args : List String), args ≠ [] →
    (Radarr.filter_movies ratio movies args).length ≤ 10 ∧
    (Radarr.filter_movies ratio movies args).Pairwise
      (fun a b => ratio b.title (String.intercalate " " args) ≤
        ratio a.title (String.intercalate " " args)) ∧
    ∀ m ∈ Radarr.filter_movies ratio movies args,
      m.fuzzy_score = some (ratio m.title (String.intercalate " " args)) := by
  intro ratio movies args _
  refine ⟨?_, ?_, ?_⟩
  · simp only [Radarr.filter_movies]
    rw [List.length_map]
    exact List.length_take_le _ _
  · simp only [Radarr.filter_movies]
    have hsorted := @List.sorted_mergeSort Radarr.Movie
      (fun a b => decide
        (ratio b.title (String.intercalate " " args) ≤
          ratio a.title (String.intercalate " " args)))
      (fun a b c hab hbc => by
        simp only [decide_eq_true_eq] at hab hbc ⊢
        exact le_trans hbc hab)
      (fun a b => by
        simp only [Bool.or_eq_true, decide_eq_true_eq]
        exact Nat.le_total _ _)
      movies
    have htake := List.Pairwise.sublist (List.take_sublist 10 _) hsorted
    refine List.Pairwise.map _ ?_ htake
    intro a b hab
    simp only [decide_eq_true_eq] at hab
    exact hab
  · intro m hm
    simp only [Radarr.filter_movies, List.mem_map] at hm
    obtain ⟨x, _, rfl⟩ := hm
    rfl

/-- Claim C3 witness: the fuzzy filter on an empty candidate list with a
one-word query returns at most 10 movies. -/
theorem claim_C3_witness :
    (Radarr.filter_movies (fun _ _ => 0) [] ["x"]).length ≤ 10 :=
  (claim_C3_fuzzy_filter (fun _ _ => 0) [] ["x"] (by decide)).1

/-- Claim C7: status always yields a summary message first, containing the
movie count, the humanized total size, and either "(all tagged)" or the
count and humanized size of untagged movies; the untagged listing and the
tagging hint follow exactly when the first argument is "+" and untagged
movies exist. -/
theorem claim_C7_status_shape :
    ∀ (hsize : Nat → String) (st : Radarr.RState) (args : List String),
    Radarr.status hsize st args ≠ [] ∧
    (∀ header, (Radarr.status hsize st args).head? = some header →
      (∃ p q, header = p ++ toString st.movies.length ++ q) ∧
      (∃ p q, header = p ++ hsize ((st.movies.map (·.sizeOnDisk)).sum) ++ q) ∧
      ((Radarr.untagged_movies st).length = 0 →
        ∃ p, header = p ++ "(all tagged)") ∧
      ((Radarr.untagged_movies st).length ≠ 0 →
        ∃ p, header = p ++
          ("(" ++ toString (Radarr.untagged_movies st).length ++
            " untagged totalling " ++
            hsize (((Radarr.untagged_movies st).map (·.sizeOnDisk)).sum) ++
            ")"))) ∧
    ((Radarr.status hsize st args).tail ≠ [] ↔
      (args.head? = some "+" ∧ (Radarr.untagged_movies st).length ≠ 0)) ∧
    (args.head? = some "+" → (Radarr.untagged_movies st).length ≠ 0 →
      (Radarr.status hsize st args).tail =
        Radarr.chunk_fold Radarr.movie_plain_line (Radarr.untagged_movies st)
          "" ++ [Radarr.tag_hint]) := by
  intro hsize st args
  refine ⟨by simp [Radarr.status], ?_, ?_, ?_⟩
  · intro header hh
    simp only [Radarr.status, List.head?_cons] at hh
    cases hh
    refine ⟨?_, ?_, ?_, ?_⟩
    · refine ⟨"There are ", " movies totalling " ++
        (hsize ((st.movies.map (·.sizeOnDisk)).sum) ++ (" " ++
          (if (Radarr.untagged_movies st).length = 0 then "(all tagged)"
           else "(" ++ toString (Radarr.untagged_movies st).length ++
             " untagged totalling " ++
             hsize (((Radarr.untagged_movies st).map (·.sizeOnDisk)).sum) ++
             ")"))), ?_⟩
      simp [String.append_assoc]
    · refine ⟨"There are " ++ (toString st.movies.length ++
        " movies totalling "), " " ++
          (if (Radarr.untagged_movies st).length = 0 then "(all tagged)"
           else "(" ++ toString (Radarr.untagged_movies st).length ++
             " untagged totalling " ++
             hsize (((Radarr.untagged_movies st).map (·.sizeOnDisk)).sum) ++
             ")"), ?_⟩
      simp [String.append_assoc]
    · intro h0
      refine ⟨"There are " ++ (toString st.movies.length ++
        (" movies totalling " ++
          (hsize ((st.movies.map (·.sizeOnDisk)).sum) ++ " "))), ?_⟩
      rw [if_pos h0]
      simp [String.append_assoc]
    · intro h0
      refine ⟨"There are " ++ (toString st.movies.length ++
        (" movies totalling " ++
          (hsize ((st.movies.map (·.sizeOnDisk)).sum) ++ " "))), ?_⟩
      rw [if_neg h0]
      simp [String.append_assoc]
  · cases args with
    | nil => simp [Radarr.status]
    | cons a as =>
      simp only [Radarr.status, List.head?_cons, List.tail_cons]
      by_cases ha : a = "+"
      · rw [if_pos ha]
        by_cases h0 : (Radarr.untagged_movies st).length > 0
        · rw [if_pos h0]
          constructor
          · intro _
            exact ⟨by rw [ha], Nat.pos_iff_ne_zero.mp h0⟩
          · intro _
            exact List.append_ne_nil_of_right_ne_nil _ (by simp)
        · rw [if_neg h0]
          constructor
          · intro hfalse
            exact absurd rfl hfalse
          · intro hright
            exact absurd (Nat.pos_of_ne_zero hright.2) h0
      · rw [if_neg ha]
        constructor
        · intro hfalse
          exact absurd rfl hfalse
        · intro hright
          exact absurd (Option.some.inj hright.1) ha
  · intro hplus h0
    cases args with
    | nil => cases hplus
    | cons a as =>
      have ha : a = "+" := Option.some.inj hplus
      simp only [Radarr.status, List.tail_cons]
      rw [if_pos ha, if_pos (Nat.pos_of_ne_zero h0)]

/-- Claim C7 witness: with one untagged movie and a "+" argument, the tail of
the status output is the untagged listing followed by the tagging hint. -/
theorem claim_C7_witness :
    (Radarr.status (fun n => toString n)
        ⟨[⟨1, 42, "T", 2001, 7, [], none⟩], []⟩ ["+"]).tail =
      Radarr.chunk_fold Radarr.movie_plain_line
        (Radarr.untagged_movies ⟨[⟨1, 42, "T", 2001, 7, [], none⟩], []⟩) ""
        ++ [Radarr.tag_hint] :=
  (claim_C7_status_shape (fun n => toString n)
    ⟨[⟨1, 42, "T", 2001, 7, [], none⟩], []⟩ ["+"]).2.2.2 rfl (by decide)

/-- Claim C1: every message yielded by list, search, and me, and every
message yielded by status after the summary, is at most 1800 characters plus
the length of one rendered movie line (the chunking loop yields as soon as
the accumulator exceeds 1800, so a chunk overshoots by at most one line). -/
theorem claim_C1_chunk_bound :
    ∀ (ratio : String → String → Nat) (hsize : Nat → String)
      (lookup : String → Option (List Radarr.Movie))
      (createTag : List Radarr.Tag → String → List Radarr.Tag)
      (st : Radarr.RState) (username : String) (args : List String)
      (msgs : List String) (stFin : Radarr.RState),
    (∀ c ∈ Radarr.list ratio st args, c.length ≤
      1800 + line_max Radarr.movie_fuzzy_line
        (Radarr.selected_movies ratio st.movies args)) ∧
    (∀ c ∈ Radarr.search lookup args, c.length ≤
      1800 + line_max Radarr.movie_plain_line
        ((lookup (String.intercalate " " args)).getD [])) ∧
    (Radarr.me createTag ratio st username args = Except.ok (msgs, stFin) →
      ∀ c ∈ msgs, c.length ≤
        1800 + line_max Radarr.movie_fuzzy_line
          (Radarr.selected_movies ratio st.movies args)) ∧
    (∀ c ∈ (Radarr.status hsize st args).tail, c.length ≤
      1800 + line_max Radarr.movie_plain_line (Radarr.untagged_movies st)) := by
  intro ratio hsize lookup createTag st username args msgs stFin
  refine ⟨?_, ?_, ?_, ?_⟩
  · exact chunk_fold_bound _ _ _ ""
      (fun m hm => le_line_max _ hm) (by simp)
  · cases args with
    | nil =>
      intro c hc
      simp only [Radarr.search, List.mem_singleton] at hc
      subst hc
      have hlen : ("Please provide a search string" : String).length ≤ 1800 :=
        by decide
      exact le_trans hlen (Nat.le_add_right _ _)
    | cons a as =>
      rcases hl : lookup (String.intercalate " " (a :: as)) with _ | ms
      · intro c hc
        simp only [Radarr.search, hl, List.mem_singleton] at hc
        subst hc
        have hlen : ("No movies found for search string \x7bsearch_string\x7d" :
            String).length ≤ 1800 := by decide
        exact le_trans hlen (Nat.le_add_right _ _)
      · intro c hc
        simp only [Radarr.search, hl] at hc
        have hb := chunk_fold_bound Radarr.movie_plain_line
          (line_max Radarr.movie_plain_line ms) ms ""
          (fun m hm => le_line_max _ hm) (by simp) c hc
        simpa using hb
  · intro hme c hc
    simp only [Radarr.me] at hme
    rcases hl : Radarr.lookup_user_tag_id createTag st.tags username with
      e | ⟨tid, t2⟩
    · rw [hl] at hme
      cases hme
    · rw [hl] at hme
      cases hme
      exact me_fold_bound tid _ _ _ ""
        (fun m hm => le_line_max _ hm) (by simp) c hc
  · cases args with
    | nil =>
      intro c hc
      simp [Radarr.status] at hc
    | cons a as =>
      simp only [Radarr.status, List.tail_cons]
      by_cases ha : a = "+"
      · rw [if_pos ha]
        by_cases h0 : (Radarr.untagged_movies st).length > 0
        · rw [if_pos h0]
          intro c hc
          rcases List.mem_append.mp hc with hc | hc
          · exact chunk_fold_bound _ _ _ ""
              (fun m hm => le_line_max _ hm) (by simp) c hc
          · rcases List.mem_singleton.mp hc with rfl
            have hlen : Radarr.tag_hint.length ≤ 1800 := by decide
            exact le_trans hlen (Nat.le_add_right _ _)
        · rw [if_neg h0]
          intro c hc
          cases hc
      · rw [if_neg ha]
        intro c hc
        cases hc

/-- Claim C1 witness: with an empty library, list yields one empty chunk,
which is within the bound. -/
theorem claim_C1_witness :
    ("" : String).length ≤ 1800 + line_max Radarr.movie_fuzzy_line
      (Radarr.selected_movies (fun _ _ => 0)
        (⟨[], []⟩ : Radarr.RState).movies []) :=
  (claim_C1_chunk_bound (fun _ _ => 0) (fun n => toString n) (fun _ => none)
    fixCreate ⟨[], []⟩ "alice" [] [] ⟨[], []⟩).1 ""
    (by simp [Radarr.list, Radarr.selected_movies, Radarr.chunk_fold])

/-- Claim C10: when no movie carries the tag of the user, me yields no messages at
all, whereas list always yields at least one message, the empty string for
an empty library. -/
theorem claim_C10_empty_outputs :
    ∀ (createTag : List Radarr.Tag → String → List Radarr.Tag)
      (ratio : String → String → Nat) (st : Radarr.RState)
      (username : String) (args : List String) (tag_id : Nat)
      (tags2 : List Radarr.Tag),
    (Radarr.lookup_user_tag_id createTag st.tags username =
        Except.ok (tag_id, tags2) →
      (∀ m ∈ st.movies, tag_id ∉ m.tags) →
      Radarr.me createTag ratio st username args =
        Except.ok ([], { st with tags := tags2 })) ∧
    Radarr.list ratio st args ≠ [] ∧
    (st.movies = [] → Radarr.list ratio st args = [""]) := by
  intro createTag ratio st username args tag_id tags2
  refine ⟨?_, ?_, ?_⟩
  · intro hlookup hnone
    simp only [Radarr.me, hlookup]
    have hnil := me_fold_eq_nil tag_id Radarr.movie_fuzzy_line
      (Radarr.selected_movies ratio st.movies args) ?side
    · rw [hnil]
    case side =>
      intro m' hm'
      obtain ⟨m, hm, he⟩ := mem_selected_tags ratio st.movies args m' hm'
      rw [he]
      exact hnone m hm
  · exact chunk_fold_ne_nil _ _ _
  · intro hempty
    simp only [Radarr.list, Radarr.selected_movies, hempty]
    by_cases hargs : args.length > 0
    · rw [if_pos hargs]
      simp [Radarr.filter_movies, Radarr.chunk_fold]
    · rw [if_neg hargs]
      simp [Radarr.chunk_fold]

/-- Claim C10 witness: with an empty library, me for "alice" yields no
messages. -/
theorem claim_C10_witness :
    Radarr.me fixCreate (fun _ _ => 0) fixState "alice" [] =
      Except.ok ([], { fixState with tags := [⟨1, "alice"⟩] }) :=
  (claim_C10_empty_outputs fixCreate (fun _ _ => 0) fixState "alice" [] 1
    [⟨1, "alice"⟩]).1 rfl (by intro m hm; cases hm)
